import Mathlib

/-!
Shallow embedding of `share.py` (hw-telemetry): the `get_data`, `plot_data`
and `main` pipeline. File contents are modelled as optional values in an
environment; numeric data as rationals; Python dicts as insertion-ordered
association lists; code that can raise as `Except Unit`.
-/

namespace HwTelemetry

/-- A Python dict with string keys, keeping insertion order. -/
abbrev Dict (α : Type) := List (String × α)

/-- Lookup (`d[k]` / `d.get(k)`); duplicate keys never arise via `set`. -/
def Dict.get? {α : Type} : Dict α → String → Option α
  | [], _ => none
  | (k', v) :: rest, k => if k' = k then some v else Dict.get? rest k

/-- Assignment `d[k] = v`: replaces in place, or appends a new key at the end
(Python dict insertion-order semantics). -/
def Dict.set {α : Type} : Dict α → String → α → Dict α
  | [], k, v => [(k, v)]
  | (k', v') :: rest, k, v =>
    if k' = k then (k', v) :: rest else (k', v') :: Dict.set rest k v

/-- The keys of a dict, in insertion order. -/
def Dict.keys {α : Type} (d : Dict α) : List String := d.map Prod.fst

/-- A value stored in the `history` dict: a numeric series (numpy 1-d array)
or the integer sample count stored under `"size"`. -/
inductive HVal : Type
  | series : List ℚ → HVal
  | count : ℕ → HVal
deriving DecidableEq

/-- A value stored in the `avg` dict: a mean, or the `"N/A"` sentinel string. -/
inductive AVal : Type
  | num : ℚ → AVal
  | na : AVal
deriving DecidableEq

/-- Elementwise division of two numpy 1-d arrays, with numpy broadcasting:
defined when the lengths agree or one operand has a single element;
otherwise numpy raises (modelled as `none`). -/
def npDiv (a b : List ℚ) : Option (List ℚ) :=
  if a.length = b.length then some (List.zipWith (fun x y => x / y) a b)
  else
    match a, b with
    | [x], _ => some (b.map (fun y => x / y))
    | _, [y] => some (a.map (fun x => x / y))
    | _, _ => none

/-- Model of `np.mean` on a 1-d array: sum over length. -/
def mean (s : List ℚ) : ℚ := s.sum / (s.length : ℚ)

/-- The contents of the files under `./data/` that `get_data` reads; `none`
models an absent (unreadable) file.  `numCores` holds one number, the series
files hold one sample per line, the name files hold whitespace-split tokens. -/
structure Env : Type where
  numCores : Option ℚ
  cpuLoad : Option (List ℚ)
  cpuTemp : Option (List ℚ)
  memFree : Option (List ℚ)
  memTotal : Option (List ℚ)
  distroName : Option (List String)
  hostName : Option String
  gpuUsed : Option (List ℚ)
  gpuTotal : Option (List ℚ)
deriving DecidableEq

/-- Model of `np.loadtxt`: returns the file's parsed contents, or raises
(`.error`) when the file is absent. -/
def loadtxt {α : Type} : Option α → Except Unit α
  | none => .error ()
  | some v => .ok v

/-- The tuple returned by `get_data`. -/
structure GetDataRes : Type where
  host_name : String
  distro_name : List String
  history : Dict HVal
  avg : Dict AVal
deriving DecidableEq

/-- Model of `get_data` from `share.py`: load the seven mandatory files, build the
`history` series dict (`cpu`, `ram`, `temp`, `size`), the `avg` dict over
`ram`, `cpu`, `temp` (the three-key loop, unrolled), then try the two GPU
files, falling back to the `"N/A"` sentinel on any failure. -/
def getData (env : Env) : Except Unit GetDataRes := do
  let num_cores ← loadtxt env.numCores
  let cpu_load ← loadtxt env.cpuLoad
  let cpu_temp ← loadtxt env.cpuTemp
  let mem_free ← loadtxt env.memFree
  let mem_total ← loadtxt env.memTotal
  let distro_name ← loadtxt env.distroName
  let host_name ← loadtxt env.hostName
  let ratio ← loadtxt (npDiv mem_free mem_total)
  let cpuSeries := cpu_load.map (fun x => x / num_cores * 100)
  let ramSeries := ratio.map (fun x => (1 - x) * 100)
  let tempSeries := cpu_temp.map (fun x => x / 1000)
  let history : Dict HVal :=
    ((((Dict.set [] "cpu" (.series cpuSeries)).set
        "ram" (.series ramSeries)).set
        "temp" (.series tempSeries)).set
        "size" (.count cpu_load.length))
  let avg : Dict AVal :=
    (((Dict.set [] "ram" (.num (mean ramSeries))).set
        "cpu" (.num (mean cpuSeries))).set
        "temp" (.num (mean tempSeries)))
  match env.gpuUsed, env.gpuTotal with
  | some gpu_used, some gpu_total =>
    match npDiv gpu_used gpu_total with
    | some g =>
      let gpuSeries := g.map (fun x => x * 100)
      pure ⟨host_name, distro_name,
        history.set "gpu" (.series gpuSeries),
        avg.set "gpu" (.num (mean gpuSeries))⟩
    | none => pure ⟨host_name, distro_name, history, avg.set "gpu" .na⟩
  | _, _ => pure ⟨host_name, distro_name, history, avg.set "gpu" .na⟩

/-- The GPU data loads and processes successfully: both files are readable
and the elementwise division is defined. -/
def gpuOk (env : Env) : Prop :=
  ∃ gu gt g, env.gpuUsed = some gu ∧ env.gpuTotal = some gt ∧ npDiv gu gt = some g

instance (env : Env) : Decidable (gpuOk env) := by
  unfold gpuOk
  rcases env.gpuUsed with _ | gu
  · exact .isFalse (by simp)
  · rcases env.gpuTotal with _ | gt
    · exact .isFalse (by simp)
    · rcases h : npDiv gu gt with _ | g
      · exact .isFalse (by simp [h])
      · exact .isTrue ⟨gu, gt, g, rfl, rfl, h⟩

/-- The samples that `axs.hist` receives from a dict value: a series is used
as is, and a stored scalar count is one sample (`np.histogram` of a scalar). -/
def histSamples : HVal → List ℚ
  | .series s => s
  | .count n => [(n : ℚ)]

/-- What `plot_data` renders: the saved file path and the samples of the four
panels; `gpuPanel = none` is the `"No GPU"` placeholder bar. -/
structure PlotResult : Type where
  filepath : String
  bins : ℕ
  cpuPanel : List ℚ
  ramPanel : List ℚ
  gpuPanel : Option (List ℚ)
  tempPanel : List ℚ
deriving DecidableEq

/-- Model of `plot_data` from `share.py`: histogram the `cpu`, `ram` and `temp`
entries (a missing key raises `KeyError`, there is no try around them); the
GPU panel is tried and falls back to the `"No GPU"` placeholder when the
`gpu` key is absent; the figure is saved to `"./plot.png"`. -/
def plotData (data : Dict HVal) (num_bins : ℕ := 40) : Except Unit PlotResult := do
  let cpu ← loadtxt (data.get? "cpu")
  let ram ← loadtxt (data.get? "ram")
  let gpu : Option (List ℚ) := (data.get? "gpu").map histSamples
  let temp ← loadtxt (data.get? "temp")
  pure ⟨"./plot.png", num_bins, histSamples cpu, histSamples ram, gpu,
    histSamples temp⟩

/-- Python `f"{x:.1f}"` on the rationals the script produces: round to
tenths and print with one digit after the decimal point. -/
def formatFix1 (q : ℚ) : String :=
  let n : ℤ := ⌊q * 10 + 1 / 2⌋
  (if n < 0 then "-" else "") ++ toString (n.natAbs / 10) ++ "." ++
    toString (n.natAbs % 10)

/-- The summary text built by `main` (lines 133–141 of `share.py`): host and
joined distribution name, CPU/RAM lines, a GPU line that shows the average
only when it is not the `"N/A"` sentinel, and a thermal line.  A missing or
non-numeric `cpu`/`ram`/`temp` average would raise (`KeyError` /
`ValueError` on formatting a string), modelled as `.error`. -/
def buildText (host : String) (distro : List String) (avg : Dict AVal) :
    Except Unit String :=
  match avg.get? "cpu", avg.get? "ram", avg.get? "temp", avg.get? "gpu" with
  | some (.num c), some (.num r), some (.num t), some g =>
    let base := host ++ " with " ++ String.intercalate " " distro ++ "\n" ++
      "CPU: " ++ formatFix1 c ++ "%\n" ++ "RAM: " ++ formatFix1 r ++ "%\n"
    let withGpu :=
      match g with
      | .num gq => base ++ "GPU: " ++ formatFix1 gq ++ "%\n"
      | .na => base ++ "GPU: N/A\n"
    .ok (withGpu ++ "Thermal: " ++ formatFix1 t ++ "°C")
  | _, _, _, _ => .error ()

/-- The summary text that one run of `main` transmits to the bot, as a
function of the data files. -/
def mainText (env : Env) : Except Unit String := do
  let r ← getData env
  buildText r.host_name r.distro_name r.avg

/-- Substring containment, on the underlying character lists. -/
def strContains (s sub : String) : Prop :=
  ∃ pre post : List Char, s.data = pre ++ sub.data ++ post

end HwTelemetry

deriving instance DecidableEq for Except

namespace HwTelemetry

/-- Master lemma: the value `get_data` returns when all nine files are
readable and both divisions are defined. -/
theorem getData_ok_of_gpu (env : Env) (nc : ℚ) (cl ct mf mt rs gu gt g : List ℚ)
    (dn : List String) (hn : String)
    (h1 : env.numCores = some nc) (h2 : env.cpuLoad = some cl)
    (h3 : env.cpuTemp = some ct) (h4 : env.memFree = some mf)
    (h5 : env.memTotal = some mt) (h6 : env.distroName = some dn)
    (h7 : env.hostName = some hn) (h8 : npDiv mf mt = some rs)
    (h9 : env.gpuUsed = some gu) (h10 : env.gpuTotal = some gt)
    (h11 : npDiv gu gt = some g) :
    getData env = .ok
      ⟨hn, dn,
        [("cpu", .series (cl.map (fun x => x / nc * 100))),
         ("ram", .series (rs.map (fun x => (1 - x) * 100))),
         ("temp", .series (ct.map (fun x => x / 1000))),
         ("size", .count cl.length),
         ("gpu", .series (g.map (fun x => x * 100)))],
        [("ram", .num (mean (rs.map (fun x => (1 - x) * 100)))),
         ("cpu", .num (mean (cl.map (fun x => x / nc * 100)))),
         ("temp", .num (mean (ct.map (fun x => x / 1000)))),
         ("gpu", .num (mean (g.map (fun x => x * 100))))]⟩ := by
  simp [getData, h1, h2, h3, h4, h5, h6, h7, h8, h9, h10, h11, loadtxt, bind,
    Except.bind, Dict.set, pure, Except.pure]

/-- Master lemma: the value `get_data` returns when the seven mandatory files
are readable, the RAM division is defined, and the GPU fallback is taken. -/
theorem getData_ok_of_noGpu (env : Env) (nc : ℚ) (cl ct mf mt rs : List ℚ)
    (dn : List String) (hn : String)
    (h1 : env.numCores = some nc) (h2 : env.cpuLoad = some cl)
    (h3 : env.cpuTemp = some ct) (h4 : env.memFree = some mf)
    (h5 : env.memTotal = some mt) (h6 : env.distroName = some dn)
    (h7 : env.hostName = some hn) (h8 : npDiv mf mt = some rs)
    (h9 : ¬ gpuOk env) :
    getData env = .ok
      ⟨hn, dn,
        [("cpu", .series (cl.map (fun x => x / nc * 100))),
         ("ram", .series (rs.map (fun x => (1 - x) * 100))),
         ("temp", .series (ct.map (fun x => x / 1000))),
         ("size", .count cl.length)],
        [("ram", .num (mean (rs.map (fun x => (1 - x) * 100)))),
         ("cpu", .num (mean (cl.map (fun x => x / nc * 100)))),
         ("temp", .num (mean (ct.map (fun x => x / 1000)))),
         ("gpu", .na)]⟩ := by
  rcases hgu : env.gpuUsed with _ | gu
  · simp [getData, h1, h2, h3, h4, h5, h6, h7, h8, hgu, loadtxt, bind,
      Except.bind, Dict.set, pure, Except.pure]
  · rcases hgt : env.gpuTotal with _ | gt
    · simp [getData, h1, h2, h3, h4, h5, h6, h7, h8, hgu, hgt, loadtxt, bind,
        Except.bind, Dict.set, pure, Except.pure]
    · rcases hnp : npDiv gu gt with _ | g
      · simp [getData, h1, h2, h3, h4, h5, h6, h7, h8, hgu, hgt, hnp, loadtxt,
          bind, Except.bind, Dict.set, pure, Except.pure]
      · exact absurd ⟨gu, gt, g, hgu, hgt, hnp⟩ h9

/-- A concrete data directory with all nine files readable. -/
def envA : Env :=
  { numCores := some 4, cpuLoad := some [2, 4], cpuTemp := some [45000, 55000],
    memFree := some [250, 500], memTotal := some [1000, 1000],
    distroName := some ["Debian", "12"], hostName := some "box",
    gpuUsed := some [3, 1], gpuTotal := some [4, 4] }

/-- A concrete data directory with the GPU files absent. -/
def envB : Env :=
  { numCores := some 4, cpuLoad := some [2, 4], cpuTemp := some [45000, 55000],
    memFree := some [250, 500], memTotal := some [1000, 1000],
    distroName := some ["Debian", "12"], hostName := some "box",
    gpuUsed := none, gpuTotal := none }

/-- What `get_data` returns on `envA`. -/
def resA : GetDataRes :=
  ⟨"box", ["Debian", "12"],
   [("cpu", .series [50, 100]), ("ram", .series [75, 50]),
    ("temp", .series [45, 55]), ("size", .count 2), ("gpu", .series [75, 25])],
   [("ram", .num (125 / 2)), ("cpu", .num 75), ("temp", .num 50),
    ("gpu", .num 50)]⟩

/-- What `get_data` returns on `envB`. -/
def resB : GetDataRes :=
  ⟨"box", ["Debian", "12"],
   [("cpu", .series [50, 100]), ("ram", .series [75, 50]),
    ("temp", .series [45, 55]), ("size", .count 2)],
   [("ram", .num (125 / 2)), ("cpu", .num 75), ("temp", .num 50), ("gpu", .na)]⟩

theorem getData_envA : getData envA = .ok resA := by
  simp [getData, envA, resA, loadtxt, bind, Except.bind, Dict.set, npDiv, mean,
    pure, Except.pure]
  norm_num

theorem getData_envB : getData envB = .ok resB := by
  simp [getData, envB, resB, loadtxt, bind, Except.bind, Dict.set, npDiv, mean,
    pure, Except.pure]
  norm_num

/-- C1: in every run of `get_data`, the CPU series is each raw CPU-load
sample divided by the number of cores times 100, the RAM series is
(1 − free/total) · 100, and the temperature series is each raw sample (in
millidegrees) divided by 1000. -/
theorem C1_derived_series (env : Env) (nc : ℚ) (cl ct mf mt rs : List ℚ)
    (dn : List String) (hn : String) (r : GetDataRes)
    (h1 : env.numCores = some nc) (h2 : env.cpuLoad = some cl)
    (h3 : env.cpuTemp = some ct) (h4 : env.memFree = some mf)
    (h5 : env.memTotal = some mt) (h6 : env.distroName = some dn)
    (h7 : env.hostName = some hn) (h8 : npDiv mf mt = some rs)
    (hr : getData env = .ok r) :
    r.history.get? "cpu" = some (.series (cl.map (fun x => x / nc * 100))) ∧
    r.history.get? "ram" = some (.series (rs.map (fun x => (1 - x) * 100))) ∧
    r.history.get? "temp" = some (.series (ct.map (fun x => x / 1000))) := by
  by_cases hg : gpuOk env
  · obtain ⟨gu, gt, g, hgu, hgt, hnp⟩ := hg
    rw [getData_ok_of_gpu env nc cl ct mf mt rs gu gt g dn hn h1 h2 h3 h4 h5 h6
      h7 h8 hgu hgt hnp] at hr
    injection hr with hr
    subst hr
    refine ⟨?_, ?_, ?_⟩ <;> simp [Dict.get?]
  · rw [getData_ok_of_noGpu env nc cl ct mf mt rs dn hn h1 h2 h3 h4 h5 h6 h7 h8
      hg] at hr
    injection hr with hr
    subst hr
    refine ⟨?_, ?_, ?_⟩ <;> simp [Dict.get?]

/-- C1, instantiated on the concrete directory `envA`. -/
theorem C1_witness :
    resA.history.get? "cpu" =
      some (.series (([2, 4] : List ℚ).map (fun x => x / 4 * 100))) ∧
    resA.history.get? "ram" =
      some (.series (([1/4, 1/2] : List ℚ).map (fun x => (1 - x) * 100))) ∧
    resA.history.get? "temp" =
      some (.series (([45000, 55000] : List ℚ).map (fun x => x / 1000))) :=
  C1_derived_series envA 4 [2, 4] [45000, 55000] [250, 500] [1000, 1000]
    [1/4, 1/2] ["Debian", "12"] "box" resA rfl rfl rfl rfl rfl rfl rfl
    (by norm_num [npDiv]) getData_envA

/-- C2: in every run of `get_data`, the averages dict maps each of `ram`,
`cpu`, `temp` to the arithmetic mean of the corresponding series in the
series dict, and, when the GPU files load and process, maps `gpu` to the
mean of the GPU series. -/
theorem C2_avg_is_mean (env : Env) (nc : ℚ) (cl ct mf mt rs : List ℚ)
    (dn : List String) (hn : String) (r : GetDataRes)
    (h1 : env.numCores = some nc) (h2 : env.cpuLoad = some cl)
    (h3 : env.cpuTemp = some ct) (h4 : env.memFree = some mf)
    (h5 : env.memTotal = some mt) (h6 : env.distroName = some dn)
    (h7 : env.hostName = some hn) (h8 : npDiv mf mt = some rs)
    (hr : getData env = .ok r) :
    (∀ k ∈ (["ram", "cpu", "temp"] : List String),
      ∃ s, r.history.get? k = some (.series s) ∧
        r.avg.get? k = some (.num (mean s))) ∧
    (gpuOk env →
      ∃ s, r.history.get? "gpu" = some (.series s) ∧
        r.avg.get? "gpu" = some (.num (mean s))) := by
  by_cases hg : gpuOk env
  · obtain ⟨gu, gt, g, hgu, hgt, hnp⟩ := hg
    rw [getData_ok_of_gpu env nc cl ct mf mt rs gu gt g dn hn h1 h2 h3 h4 h5 h6
      h7 h8 hgu hgt hnp] at hr
    injection hr with hr
    subst hr
    constructor
    · intro k hk
      fin_cases hk
      · exact ⟨rs.map (fun x => (1 - x) * 100), by simp [Dict.get?],
          by simp [Dict.get?]⟩
      · exact ⟨cl.map (fun x => x / nc * 100), by simp [Dict.get?],
          by simp [Dict.get?]⟩
      · exact ⟨ct.map (fun x => x / 1000), by simp [Dict.get?],
          by simp [Dict.get?]⟩
    · intro _
      exact ⟨g.map (fun x => x * 100), by simp [Dict.get?], by simp [Dict.get?]⟩
  · rw [getData_ok_of_noGpu env nc cl ct mf mt rs dn hn h1 h2 h3 h4 h5 h6 h7 h8
      hg] at hr
    injection hr with hr
    subst hr
    constructor
    · intro k hk
      fin_cases hk
      · exact ⟨rs.map (fun x => (1 - x) * 100), by simp [Dict.get?],
          by simp [Dict.get?]⟩
      · exact ⟨cl.map (fun x => x / nc * 100), by simp [Dict.get?],
          by simp [Dict.get?]⟩
      · exact ⟨ct.map (fun x => x / 1000), by simp [Dict.get?],
          by simp [Dict.get?]⟩
    · intro hg'
      exact absurd hg' hg

/-- C2, instantiated on the concrete directory `envA`. -/
theorem C2_witness :
    (∀ k ∈ (["ram", "cpu", "temp"] : List String),
      ∃ s, resA.history.get? k = some (.series s) ∧
        resA.avg.get? k = some (.num (mean s))) ∧
    (gpuOk envA →
      ∃ s, resA.history.get? "gpu" = some (.series s) ∧
        resA.avg.get? "gpu" = some (.num (mean s))) :=
  C2_avg_is_mean envA 4 [2, 4] [45000, 55000] [250, 500] [1000, 1000]
    [1/4, 1/2] ["Debian", "12"] "box" resA rfl rfl rfl rfl rfl rfl rfl
    (by norm_num [npDiv]) getData_envA

/-- C3: when the GPU files are absent (and the mandatory ones readable),
`get_data` still succeeds and assigns the `"N/A"` sentinel to `gpu`; on any
successful run the `gpu` average is the sentinel exactly when the GPU data
could not be loaded and processed. -/
theorem C3_gpu_fallback (env : Env) (nc : ℚ) (cl ct mf mt rs : List ℚ)
    (dn : List String) (hn : String)
    (h1 : env.numCores = some nc) (h2 : env.cpuLoad = some cl)
    (h3 : env.cpuTemp = some ct) (h4 : env.memFree = some mf)
    (h5 : env.memTotal = some mt) (h6 : env.distroName = some dn)
    (h7 : env.hostName = some hn) (h8 : npDiv mf mt = some rs) :
    ((env.gpuUsed = none ∧ env.gpuTotal = none) →
      ∃ r, getData env = .ok r ∧ r.avg.get? "gpu" = some .na) ∧
    (∀ r, getData env = .ok r →
      (r.avg.get? "gpu" = some .na ↔ ¬ gpuOk env)) := by
  constructor
  · rintro ⟨hgu, hgt⟩
    have hng : ¬ gpuOk env := by
      rintro ⟨gu, gt, g, h, _, _⟩
      rw [hgu] at h
      cases h
    exact ⟨_, getData_ok_of_noGpu env nc cl ct mf mt rs dn hn h1 h2 h3 h4 h5 h6
      h7 h8 hng, by simp [Dict.get?]⟩
  · intro r hr
    by_cases hg : gpuOk env
    · have hg' := hg
      obtain ⟨gu, gt, g, hgu, hgt, hnp⟩ := hg
      rw [getData_ok_of_gpu env nc cl ct mf mt rs gu gt g dn hn h1 h2 h3 h4 h5
        h6 h7 h8 hgu hgt hnp] at hr
      injection hr with hr
      subst hr
      simp [Dict.get?, hg']
    · rw [getData_ok_of_noGpu env nc cl ct mf mt rs dn hn h1 h2 h3 h4 h5 h6 h7
        h8 hg] at hr
      injection hr with hr
      subst hr
      simp [Dict.get?, hg]

/-- C3, instantiated on the concrete directory `envB` (GPU files absent). -/
theorem C3_witness :
    ((envB.gpuUsed = none ∧ envB.gpuTotal = none) →
      ∃ r, getData envB = .ok r ∧ r.avg.get? "gpu" = some .na) ∧
    (∀ r, getData envB = .ok r →
      (r.avg.get? "gpu" = some .na ↔ ¬ gpuOk envB)) :=
  C3_gpu_fallback envB 4 [2, 4] [45000, 55000] [250, 500] [1000, 1000]
    [1/4, 1/2] ["Debian", "12"] "box" rfl rfl rfl rfl rfl rfl rfl
    (by norm_num [npDiv])

/-- Helper: `get_data` raises as soon as one of the seven mandatory files is
absent. -/
theorem getData_error_of_missing (env : Env)
    (h : env.numCores = none ∨ env.cpuLoad = none ∨ env.cpuTemp = none ∨
      env.memFree = none ∨ env.memTotal = none ∨ env.distroName = none ∨
      env.hostName = none) :
    getData env = .error () := by
  obtain ⟨nc, cl, ct, mf, mt, dn, hn, gu, gt⟩ := env
  rcases nc with _ | nc
  · simp [getData, loadtxt, bind, Except.bind]
  rcases cl with _ | cl
  · simp [getData, loadtxt, bind, Except.bind]
  rcases ct with _ | ct
  · simp [getData, loadtxt, bind, Except.bind]
  rcases mf with _ | mf
  · simp [getData, loadtxt, bind, Except.bind]
  rcases mt with _ | mt
  · simp [getData, loadtxt, bind, Except.bind]
  rcases dn with _ | dn
  · simp [getData, loadtxt, bind, Except.bind]
  rcases hn with _ | hn
  · simp [getData, loadtxt, bind, Except.bind]
  simp at h

/-- C4: only the GPU data is optional.  Absence of any of the seven
mandatory files makes `get_data` raise; absence of only the GPU files does
not make it fail. -/
theorem C4_only_gpu_optional (env : Env) :
    ((env.numCores = none ∨ env.cpuLoad = none ∨ env.cpuTemp = none ∨
      env.memFree = none ∨ env.memTotal = none ∨ env.distroName = none ∨
      env.hostName = none) → getData env = .error ()) ∧
    (∀ (nc : ℚ) (cl ct mf mt rs : List ℚ) (dn : List String) (hn : String),
      env.numCores = some nc → env.cpuLoad = some cl → env.cpuTemp = some ct →
      env.memFree = some mf → env.memTotal = some mt →
      env.distroName = some dn → env.hostName = some hn →
      npDiv mf mt = some rs → env.gpuUsed = none → env.gpuTotal = none →
      (getData env).isOk = true) := by
  constructor
  · exact getData_error_of_missing env
  · intro nc cl ct mf mt rs dn hn h1 h2 h3 h4 h5 h6 h7 h8 h9 h10
    have hng : ¬ gpuOk env := by
      rintro ⟨gu, gt, g, h, _, _⟩
      rw [h9] at h
      cases h
    rw [getData_ok_of_noGpu env nc cl ct mf mt rs dn hn h1 h2 h3 h4 h5 h6 h7 h8
      hng]
    rfl

/-- A concrete data directory where a mandatory file (`numCores`) is
absent. -/
def envC : Env :=
  { numCores := none, cpuLoad := some [2, 4], cpuTemp := some [45000, 55000],
    memFree := some [250, 500], memTotal := some [1000, 1000],
    distroName := some ["Debian", "12"], hostName := some "box",
    gpuUsed := some [3, 1], gpuTotal := some [4, 4] }

/-- C4, instantiated: `get_data` raises on `envC` (missing `numCores`) and
succeeds on `envB` (only the GPU files absent). -/
theorem C4_witness :
    getData envC = .error () ∧ (getData envB).isOk = true :=
  ⟨(C4_only_gpu_optional envC).1 (Or.inl rfl),
   (C4_only_gpu_optional envB).2 4 [2, 4] [45000, 55000] [250, 500]
     [1000, 1000] [1/4, 1/2] ["Debian", "12"] "box" rfl rfl rfl rfl rfl rfl
     rfl (by norm_num [npDiv]) rfl rfl⟩

/-- A concrete data directory whose temperature file has two samples while
the CPU-load file has one. -/
def envD : Env :=
  { numCores := some 1, cpuLoad := some [1], cpuTemp := some [1000, 2000],
    memFree := some [0], memTotal := some [1], distroName := some ["d"],
    hostName := some "h", gpuUsed := none, gpuTotal := none }

/-- What `get_data` returns on `envD`. -/
def resD : GetDataRes :=
  ⟨"h", ["d"],
   [("cpu", .series [100]), ("ram", .series [100]), ("temp", .series [1, 2]),
    ("size", .count 1)],
   [("ram", .num 100), ("cpu", .num 100), ("temp", .num (3 / 2)),
    ("gpu", .na)]⟩

theorem getData_envD : getData envD = .ok resD := by
  simp [getData, envD, resD, loadtxt, bind, Except.bind, Dict.set, npDiv, mean,
    pure, Except.pure]
  norm_num

/-- C5 fails as stated: on `envD` the run succeeds with `size = 1`, yet the
temperature series it contains has 2 samples. -/
theorem C5_counterexample :
    getData envD = .ok resD ∧
    resD.history.get? "size" = some (.count 1) ∧
    resD.history.get? "temp" = some (.series [1, 2]) ∧
    ¬ (∀ k s, resD.history.get? k = some (.series s) →
        resD.history.get? "size" = some (.count s.length)) := by
  refine ⟨getData_envD, by simp [resD, Dict.get?], by simp [resD, Dict.get?],
    ?_⟩
  intro hclaim
  have h2 := hclaim "temp" [1, 2] (by simp [resD, Dict.get?])
  have h1 : resD.history.get? "size" = some (.count 1) := by
    simp [resD, Dict.get?]
  rw [h1] at h2
  simp at h2

/-- C5 (amended): when every raw series file has as many samples as the
CPU-load file (temperature, the RAM free/total ratio, and the GPU ratio when
it processes), the `size` entry equals the sample count of every series in
the series dict. -/
theorem C5_size_matches (env : Env) (nc : ℚ) (cl ct mf mt rs : List ℚ)
    (dn : List String) (hn : String) (r : GetDataRes)
    (h1 : env.numCores = some nc) (h2 : env.cpuLoad = some cl)
    (h3 : env.cpuTemp = some ct) (h4 : env.memFree = some mf)
    (h5 : env.memTotal = some mt) (h6 : env.distroName = some dn)
    (h7 : env.hostName = some hn) (h8 : npDiv mf mt = some rs)
    (hct : ct.length = cl.length) (hrs : rs.length = cl.length)
    (hgpu : ∀ gu gt g, env.gpuUsed = some gu → env.gpuTotal = some gt →
      npDiv gu gt = some g → g.length = cl.length)
    (hr : getData env = .ok r) :
    ∀ k s, r.history.get? k = some (.series s) →
      r.history.get? "size" = some (.count s.length) := by
  by_cases hg : gpuOk env
  · obtain ⟨gu, gt, g, hgu, hgt, hnp⟩ := hg
    have hgl : g.length = cl.length := hgpu gu gt g hgu hgt hnp
    rw [getData_ok_of_gpu env nc cl ct mf mt rs gu gt g dn hn h1 h2 h3 h4 h5 h6
      h7 h8 hgu hgt hnp] at hr
    injection hr with hr
    subst hr
    intro k s h
    simp only [Dict.get?] at h
    split_ifs at h
    · simp only [Option.some.injEq, HVal.series.injEq] at h
      subst h
      simp [Dict.get?, List.length_map]
    · simp only [Option.some.injEq, HVal.series.injEq] at h
      subst h
      simp [Dict.get?, List.length_map, hrs]
    · simp only [Option.some.injEq, HVal.series.injEq] at h
      subst h
      simp [Dict.get?, List.length_map, hct]
    · exact absurd h (by simp)
    · simp only [Option.some.injEq, HVal.series.injEq] at h
      subst h
      simp [Dict.get?, List.length_map, hgl]
  · rw [getData_ok_of_noGpu env nc cl ct mf mt rs dn hn h1 h2 h3 h4 h5 h6 h7 h8
      hg] at hr
    injection hr with hr
    subst hr
    intro k s h
    simp only [Dict.get?] at h
    split_ifs at h
    · simp only [Option.some.injEq, HVal.series.injEq] at h
      subst h
      simp [Dict.get?, List.length_map]
    · simp only [Option.some.injEq, HVal.series.injEq] at h
      subst h
      simp [Dict.get?, List.length_map, hrs]
    · simp only [Option.some.injEq, HVal.series.injEq] at h
      subst h
      simp [Dict.get?, List.length_map, hct]
    · exact absurd h (by simp)

/-- C5 (amended), instantiated on the concrete directory `envB` and its
temperature series. -/
theorem C5_witness :
    resB.history.get? "size" = some (.count ([45, 55] : List ℚ).length) :=
  C5_size_matches envB 4 [2, 4] [45000, 55000] [250, 500] [1000, 1000]
    [1/4, 1/2] ["Debian", "12"] "box" resB rfl rfl rfl rfl rfl rfl rfl
    (by norm_num [npDiv]) rfl rfl
    (fun _ _ _ e1 _ _ => Option.noConfusion e1) getData_envB "temp" [45, 55]
    (by simp [resB, Dict.get?])

/-- C6: on any series dict holding `cpu`, `ram` and `temp` entries,
`plot_data` renders the four panels into one saved image without raising,
even when the `gpu` key is missing; in that case the GPU panel is the
`"No GPU"` placeholder. -/
theorem C6_plot_four_panels (data : Dict HVal) (bins : ℕ) (cv rv tv : HVal)
    (h1 : data.get? "cpu" = some cv) (h2 : data.get? "ram" = some rv)
    (h3 : data.get? "temp" = some tv) :
    ∃ res, plotData data bins = .ok res ∧
      res.filepath = "./plot.png" ∧
      res.cpuPanel = histSamples cv ∧
      res.ramPanel = histSamples rv ∧
      res.tempPanel = histSamples tv ∧
      res.gpuPanel = (data.get? "gpu").map histSamples ∧
      (data.get? "gpu" = none → res.gpuPanel = none) := by
  refine ⟨⟨"./plot.png", bins, histSamples cv, histSamples rv,
    (data.get? "gpu").map histSamples, histSamples tv⟩, ?_, rfl, rfl, rfl,
    rfl, rfl, ?_⟩
  · simp [plotData, h1, h2, h3, loadtxt, bind, Except.bind, pure, Except.pure]
  · intro hg
    simp [hg]

/-- C6, instantiated on the series dict `get_data` produced for `envB`
(no `gpu` key). -/
theorem C6_witness :
    ∃ res, plotData resB.history 40 = .ok res ∧
      res.filepath = "./plot.png" ∧
      res.cpuPanel = histSamples (.series [50, 100]) ∧
      res.ramPanel = histSamples (.series [75, 50]) ∧
      res.tempPanel = histSamples (.series [45, 55]) ∧
      res.gpuPanel = (resB.history.get? "gpu").map histSamples ∧
      (resB.history.get? "gpu" = none → res.gpuPanel = none) :=
  C6_plot_four_panels resB.history 40 (.series [50, 100]) (.series [75, 50])
    (.series [45, 55]) (by simp [resB, Dict.get?]) (by simp [resB, Dict.get?])
    (by simp [resB, Dict.get?])

/-- C9: whatever the input dict and bin count, a successful `plot_data`
returns the constant path `"./plot.png"`. -/
theorem C9_constant_path (data : Dict HVal) (bins : ℕ) (res : PlotResult)
    (h : plotData data bins = .ok res) : res.filepath = "./plot.png" := by
  rcases hc : data.get? "cpu" with _ | cv <;>
    rcases hm : data.get? "ram" with _ | rv <;>
      rcases ht : data.get? "temp" with _ | tv <;>
        simp only [plotData, hc, hm, ht, loadtxt, bind, Except.bind, pure,
          Except.pure] at h <;>
          first
            | (injection h with h2; subst h2; rfl)
            | cases h

/-- C9, instantiated on the series dict `get_data` produced for `envB`. -/
theorem C9_witness :
    (⟨"./plot.png", 40, [50, 100], [75, 50], none, [45, 55]⟩ :
      PlotResult).filepath = "./plot.png" :=
  C9_constant_path resB.history 40 _
    (by simp [plotData, resB, Dict.get?, histSamples, loadtxt, bind,
      Except.bind, pure, Except.pure])

/-- C8: `get_data` is deterministic and stateless: two runs over identical
file contents return identical results. -/
theorem C8_deterministic (e₁ e₂ : Env)
    (h1 : e₁.numCores = e₂.numCores) (h2 : e₁.cpuLoad = e₂.cpuLoad)
    (h3 : e₁.cpuTemp = e₂.cpuTemp) (h4 : e₁.memFree = e₂.memFree)
    (h5 : e₁.memTotal = e₂.memTotal) (h6 : e₁.distroName = e₂.distroName)
    (h7 : e₁.hostName = e₂.hostName) (h8 : e₁.gpuUsed = e₂.gpuUsed)
    (h9 : e₁.gpuTotal = e₂.gpuTotal) :
    getData e₁ = getData e₂ := by
  have he : e₁ = e₂ := by
    cases e₁
    cases e₂
    simp_all
  rw [he]

/-- A second data directory whose files hold the same contents as `envA`. -/
def envA2 : Env :=
  { numCores := some 4, cpuLoad := some [2, 4], cpuTemp := some [45000, 55000],
    memFree := some [250, 500], memTotal := some [1000, 1000],
    distroName := some ["Debian", "12"], hostName := some "box",
    gpuUsed := some [3, 1], gpuTotal := some [4, 4] }

/-- C8, instantiated: two runs over directories with identical contents. -/
theorem C8_witness : getData envA = getData envA2 :=
  C8_deterministic envA envA2 rfl rfl rfl rfl rfl rfl rfl rfl rfl

/-- C10: every successful run produces exactly the averages keys `ram`,
`cpu`, `temp`, `gpu`; the series dict has a `gpu` entry exactly when the GPU
data loaded, and on the fallback `gpu` is `"N/A"` in the averages but absent
from the series dict. -/
theorem C10_key_inventory (env : Env) (nc : ℚ) (cl ct mf mt rs : List ℚ)
    (dn : List String) (hn : String) (r : GetDataRes)
    (h1 : env.numCores = some nc) (h2 : env.cpuLoad = some cl)
    (h3 : env.cpuTemp = some ct) (h4 : env.memFree = some mf)
    (h5 : env.memTotal = some mt) (h6 : env.distroName = some dn)
    (h7 : env.hostName = some hn) (h8 : npDiv mf mt = some rs)
    (hr : getData env = .ok r) :
    r.avg.keys = ["ram", "cpu", "temp", "gpu"] ∧
    ((∃ s, r.history.get? "gpu" = some (.series s)) ↔ gpuOk env) ∧
    (¬ gpuOk env →
      r.avg.get? "gpu" = some .na ∧ r.history.get? "gpu" = none) := by
  by_cases hg : gpuOk env
  · have hg' := hg
    obtain ⟨gu, gt, g, hgu, hgt, hnp⟩ := hg
    rw [getData_ok_of_gpu env nc cl ct mf mt rs gu gt g dn hn h1 h2 h3 h4 h5 h6
      h7 h8 hgu hgt hnp] at hr
    injection hr with hr
    subst hr
    refine ⟨by simp [Dict.keys], ?_, fun hng => absurd hg' hng⟩
    simp [Dict.get?, hg']
  · rw [getData_ok_of_noGpu env nc cl ct mf mt rs dn hn h1 h2 h3 h4 h5 h6 h7 h8
      hg] at hr
    injection hr with hr
    subst hr
    refine ⟨by simp [Dict.keys], by simp [Dict.get?, hg], ?_⟩
    intro _
    exact ⟨by simp [Dict.get?], by simp [Dict.get?]⟩

/-- C10, instantiated on the concrete directory `envA`. -/
theorem C10_witness :
    resA.avg.keys = ["ram", "cpu", "temp", "gpu"] ∧
    ((∃ s, resA.history.get? "gpu" = some (.series s)) ↔ gpuOk envA) ∧
    (¬ gpuOk envA →
      resA.avg.get? "gpu" = some .na ∧ resA.history.get? "gpu" = none) :=
  C10_key_inventory envA 4 [2, 4] [45000, 55000] [250, 500] [1000, 1000]
    [1/4, 1/2] ["Debian", "12"] "box" resA rfl rfl rfl rfl rfl rfl rfl
    (by norm_num [npDiv]) getData_envA

/-- C7: the summary text `main` transmits contains the host name, the joined
distribution name, the CPU, RAM and temperature averages each formatted to
one decimal place, and a GPU line showing either the formatted GPU average
or the literal text `N/A`. -/
theorem C7_summary_text (env : Env) (r : GetDataRes) (c rm t : ℚ) (g : AVal)
    (hr : getData env = .ok r)
    (hc : r.avg.get? "cpu" = some (.num c))
    (hm : r.avg.get? "ram" = some (.num rm))
    (ht : r.avg.get? "temp" = some (.num t))
    (hg : r.avg.get? "gpu" = some g) :
    ∃ txt, mainText env = .ok txt ∧
      strContains txt r.host_name ∧
      strContains txt (String.intercalate " " r.distro_name) ∧
      strContains txt ("CPU: " ++ formatFix1 c ++ "%") ∧
      strContains txt ("RAM: " ++ formatFix1 rm ++ "%") ∧
      strContains txt ("Thermal: " ++ formatFix1 t ++ "°C") ∧
      (∀ q, g = .num q → strContains txt ("GPU: " ++ formatFix1 q ++ "%")) ∧
      (g = .na → strContains txt "GPU: N/A") := by
  rcases g with q | _
  · simp only [mainText, hr, bind, Except.bind, buildText, hc, hm, ht, hg]
    refine ⟨_, rfl, ?_, ?_, ?_, ?_, ?_, ?_, ?_⟩
    · exact ⟨[], (" with " ++ String.intercalate " " r.distro_name ++ "\n" ++
        "CPU: " ++ formatFix1 c ++ "%\n" ++ "RAM: " ++ formatFix1 rm ++ "%\n"
        ++ "GPU: " ++ formatFix1 q ++ "%\n" ++ "Thermal: " ++ formatFix1 t ++
        "°C").data, by simp [String.data_append]⟩
    · exact ⟨(r.host_name ++ " with ").data, ("\n" ++ "CPU: " ++ formatFix1 c
        ++ "%\n" ++ "RAM: " ++ formatFix1 rm ++ "%\n" ++ "GPU: " ++
        formatFix1 q ++ "%\n" ++ "Thermal: " ++ formatFix1 t ++ "°C").data,
        by simp [String.data_append]⟩
    · exact ⟨(r.host_name ++ " with " ++ String.intercalate " " r.distro_name
        ++ "\n").data, '\n' :: ("RAM: " ++ formatFix1 rm ++ "%\n" ++ "GPU: "
        ++ formatFix1 q ++ "%\n" ++ "Thermal: " ++ formatFix1 t ++
        "°C").data, by simp [String.data_append]⟩
    · exact ⟨(r.host_name ++ " with " ++ String.intercalate " " r.distro_name
        ++ "\n" ++ "CPU: " ++ formatFix1 c ++ "%\n").data, '\n' :: ("GPU: "
        ++ formatFix1 q ++ "%\n" ++ "Thermal: " ++ formatFix1 t ++
        "°C").data, by simp [String.data_append]⟩
    · exact ⟨(r.host_name ++ " with " ++ String.intercalate " " r.distro_name
        ++ "\n" ++ "CPU: " ++ formatFix1 c ++ "%\n" ++ "RAM: " ++
        formatFix1 rm ++ "%\n" ++ "GPU: " ++ formatFix1 q ++ "%\n").data, [],
        by simp [String.data_append]⟩
    · intro q' hq
      injection hq with hq
      subst hq
      exact ⟨(r.host_name ++ " with " ++ String.intercalate " " r.distro_name
        ++ "\n" ++ "CPU: " ++ formatFix1 c ++ "%\n" ++ "RAM: " ++
        formatFix1 rm ++ "%\n").data, '\n' :: ("Thermal: " ++ formatFix1 t ++
        "°C").data, by simp [String.data_append]⟩
    · intro hq
      cases hq
  · simp only [mainText, hr, bind, Except.bind, buildText, hc, hm, ht, hg]
    refine ⟨_, rfl, ?_, ?_, ?_, ?_, ?_, ?_, ?_⟩
    · exact ⟨[], (" with " ++ String.intercalate " " r.distro_name ++ "\n" ++
        "CPU: " ++ formatFix1 c ++ "%\n" ++ "RAM: " ++ formatFix1 rm ++ "%\n"
        ++ "GPU: N/A\n" ++ "Thermal: " ++ formatFix1 t ++ "°C").data,
        by simp [String.data_append]⟩
    · exact ⟨(r.host_name ++ " with ").data, ("\n" ++ "CPU: " ++ formatFix1 c
        ++ "%\n" ++ "RAM: " ++ formatFix1 rm ++ "%\n" ++ "GPU: N/A\n" ++
        "Thermal: " ++ formatFix1 t ++ "°C").data,
        by simp [String.data_append]⟩
    · exact ⟨(r.host_name ++ " with " ++ String.intercalate " " r.distro_name
        ++ "\n").data, '\n' :: ("RAM: " ++ formatFix1 rm ++ "%\n" ++
        "GPU: N/A\n" ++ "Thermal: " ++ formatFix1 t ++ "°C").data,
        by simp [String.data_append]⟩
    · exact ⟨(r.host_name ++ " with " ++ String.intercalate " " r.distro_name
        ++ "\n" ++ "CPU: " ++ formatFix1 c ++ "%\n").data, '\n' ::
        ("GPU: N/A\n" ++ "Thermal: " ++ formatFix1 t ++ "°C").data,
        by simp [String.data_append]⟩
    · exact ⟨(r.host_name ++ " with " ++ String.intercalate " " r.distro_name
        ++ "\n" ++ "CPU: " ++ formatFix1 c ++ "%\n" ++ "RAM: " ++
        formatFix1 rm ++ "%\n" ++ "GPU: N/A\n").data, [],
        by simp [String.data_append]⟩
    · intro q' hq
      cases hq
    · intro _
      exact ⟨(r.host_name ++ " with " ++ String.intercalate " " r.distro_name
        ++ "\n" ++ "CPU: " ++ formatFix1 c ++ "%\n" ++ "RAM: " ++
        formatFix1 rm ++ "%\n").data, '\n' :: ("Thermal: " ++ formatFix1 t ++
        "°C").data, by simp [String.data_append]⟩

/-- C7, instantiated on the concrete directory `envA`. -/
theorem C7_witness :
    ∃ txt, mainText envA = .ok txt ∧
      strContains txt resA.host_name ∧
      strContains txt (String.intercalate " " resA.distro_name) ∧
      strContains txt ("CPU: " ++ formatFix1 75 ++ "%") ∧
      strContains txt ("RAM: " ++ formatFix1 (125 / 2) ++ "%") ∧
      strContains txt ("Thermal: " ++ formatFix1 50 ++ "°C") ∧
      (∀ q, AVal.num 50 = .num q →
        strContains txt ("GPU: " ++ formatFix1 q ++ "%")) ∧
      (AVal.num 50 = .na → strContains txt "GPU: N/A") :=
  C7_summary_text envA resA 75 (125 / 2) 50 (.num 50) getData_envA
    (by simp [resA, Dict.get?]) (by simp [resA, Dict.get?])
    (by simp [resA, Dict.get?]) (by simp [resA, Dict.get?])

end HwTelemetry
